import Mathlib

/-!
Verification development for the `vnpy_futu` datafeed adapter
(`src/vnpy_futu/futu_datafeed.py`).

The Python module defines a class `FutuDatafeed` with three methods:
`init(setting)`, `close()` and `query_bar_history(req, output)`.
We give a shallow embedding:

* the object state (`quote_ctx`, `inited`) is an explicit `FutuDatafeed`
  structure threaded through the methods;
* the external quote session (`OpenQuoteContext.request_history_kline`)
  is modelled as a finite script `List PageResponse` consumed one entry
  per call, which makes the pagination loop structurally terminating;
  a call made when the script is exhausted leaves the model undefined
  (`none`), a case no theorem depends on;
* diagnostics written through the `output` callback, and the calls made
  to the external collaborators, are collected as explicit event lists;
* `datetime.strftime` / `datetime.strptime` for the two fixed formats
  used by the code are implemented concretely on a `PyDatetime` record;
* numeric row payloads (OHLC, volume, turnover) are only ever copied,
  never computed with, so they are modelled as `Int`;
* fallible code (a `strptime` that can raise, a session call the script
  does not cover) returns `Option`.
-/

set_option autoImplicit false

namespace VnpyFutu

/-- The caller's interval enum (`vnpy.trader.constant.Interval`). -/
inductive Interval where
  | MINUTE
  | HOUR
  | DAILY
  | WEEKLY
  | TICK
deriving DecidableEq, Repr

/-- The caller's exchange enum (`vnpy.trader.constant.Exchange`); a
representative subset containing every member the source maps plus
unmapped members (`NYSE`, `CFFEX`). -/
inductive Exchange where
  | SEHK
  | SMART
  | SSE
  | SZSE
  | NASDAQ
  | NYSE
  | CFFEX
deriving DecidableEq, Repr

/-- The vendor's kline-type enum (`futu.KLType`); the subset the source
uses. -/
inductive KLType where
  | K_1M
  | K_60M
  | K_DAY
  | K_WEEK
deriving DecidableEq, Repr

/-- `INTERVAL_VT2FUTU.get(interval)`: the static interval map of the
source; `none` models Python's `None` for a missing key. -/
def INTERVAL_VT2FUTU : Interval → Option KLType
  | .MINUTE => some .K_1M
  | .HOUR => some .K_60M
  | .DAILY => some .K_DAY
  | .WEEKLY => some .K_WEEK
  | .TICK => none

/-- `EXCHANGE_VT2FUTU.get(exchange, "")`: the static exchange map of the
source, queried with default `""` as in the code. -/
def EXCHANGE_VT2FUTU_get : Exchange → String
  | .SEHK => "HK"
  | .SMART => "US"
  | .SSE => "SH"
  | .SZSE => "SZ"
  | .NASDAQ => "US"
  | _ => ""

/-- A Python `datetime` value: calendar fields plus an optional `tzinfo`
(the zone key string of a `ZoneInfo`); `tzinfo = none` is a naive
datetime. -/
structure PyDatetime where
  year : Nat
  month : Nat
  day : Nat
  hour : Nat
  minute : Nat
  second : Nat
  tzinfo : Option String
deriving DecidableEq, Repr

/-- Zero-pad a number to two digits, as `%m`, `%d`, `%H`, `%M`, `%S` do. -/
def pad2 (n : Nat) : String :=
  if n < 10 then "0" ++ toString n else toString n

/-- Zero-pad a number to four digits, as `%Y` does for years up to 9999. -/
def pad4 (n : Nat) : String :=
  if n < 10 then "000" ++ toString n
  else if n < 100 then "00" ++ toString n
  else if n < 1000 then "0" ++ toString n
  else toString n

/-- `d.strftime("%Y-%m-%d")`: format the calendar date, discarding the
time of day. -/
def strftime_Ymd (d : PyDatetime) : String :=
  pad4 d.year ++ "-" ++ pad2 d.month ++ "-" ++ pad2 d.day

/-- Decimal value of a digit character, `none` on a non-digit. -/
def digitVal (c : Char) : Option Nat :=
  if c.isDigit then some (c.toNat - 48) else none

/-- Gregorian leap-year rule used by `datetime`'s day validation. -/
def isLeap (y : Nat) : Bool :=
  (y % 4 == 0 && y % 100 != 0) || y % 400 == 0

/-- Days in a month, as validated by the `datetime` constructor. -/
def daysInMonth (y m : Nat) : Nat :=
  if m = 2 then (if isLeap y then 29 else 28)
  else if m = 4 ∨ m = 6 ∨ m = 9 ∨ m = 11 then 30
  else 31

/-- Parse two digit characters as a two-digit number. -/
def parse2 (a b : Char) : Option Nat := do
  let x ← digitVal a
  let y ← digitVal b
  pure (10 * x + y)

/-- Parse four digit characters as a four-digit number. -/
def parse4 (a b c d : Char) : Option Nat := do
  let x ← parse2 a b
  let y ← parse2 c d
  pure (100 * x + y)

/-- `datetime.strptime(s, "%Y-%m-%d %H:%M:%S")` on the fixed-width form
the vendor delivers: `none` models the `ValueError` raised on a
malformed string or out-of-range field; the result is naive
(`tzinfo = none`). -/
def strptime_YmdHMS (s : String) : Option PyDatetime :=
  match s.data with
  | [y1, y2, y3, y4, sep1, m1, m2, sep2, d1, d2, sp,
     h1, h2, c1, n1, n2, c2, s1, s2] =>
    if sep1 = '-' ∧ sep2 = '-' ∧ sp = ' ' ∧ c1 = ':' ∧ c2 = ':' then do
      let y ← parse4 y1 y2 y3 y4
      let mo ← parse2 m1 m2
      let d ← parse2 d1 d2
      let h ← parse2 h1 h2
      let mi ← parse2 n1 n2
      let se ← parse2 s1 s2
      if 1 ≤ y ∧ 1 ≤ mo ∧ mo ≤ 12 ∧ 1 ≤ d ∧ d ≤ daysInMonth y mo ∧
          h ≤ 23 ∧ mi ≤ 59 ∧ se ≤ 59 then
        pure ⟨y, mo, d, h, mi, se, none⟩
      else
        none
    else
      none
  | _ => none

/-- One row of the vendor's kline DataFrame: the attributes
`query_bar_history` reads off `row` in its `itertuples()` loop. -/
structure Row where
  time_key : String
  «open» : Int
  high : Int
  low : Int
  close : Int
  volume : Int
  turnover : Int
deriving DecidableEq, Repr

/-- `vnpy.trader.object.BarData`, restricted to the fields the source
constructs. -/
structure BarData where
  symbol : String
  exchange : Exchange
  datetime : PyDatetime
  interval : Interval
  volume : Int
  turnover : Int
  open_price : Int
  high_price : Int
  low_price : Int
  close_price : Int
  gateway_name : String
deriving DecidableEq, Repr

/-- `vnpy.trader.object.HistoryRequest`: the immutable query input. -/
structure HistoryRequest where
  symbol : String
  exchange : Exchange
  interval : Interval
  start : PyDatetime
  «end» : PyDatetime
deriving DecidableEq, Repr

/-- One diagnostic written through the `output` callback, one
constructor per `output(...)` site of `query_bar_history`, carrying the
values interpolated into the format string. -/
inductive Msg where
  /-- `output(_("富途数据源未初始化"))` -/
  | notInited
  /-- `output(_("不支持的时间周期: {}").format(interval))` -/
  | unsupportedInterval (interval : Interval)
  /-- `output(_("不支持的交易所: {}").format(exchange))` -/
  | unsupportedExchange (exchange : Exchange)
  /-- `output(_("查询K线数据: {}, 周期: {}, 开始: {}, 结束: {}")...)` -/
  | queryStart (futu_symbol : String) (ktype : KLType)
      (start : PyDatetime) («end» : PyDatetime)
  /-- `output(_("查询K线数据失败: {}").format(data))` -/
  | queryFailed (payload : String)
  /-- `output(_("查询分页数据失败: {}").format(data))` -/
  | pageFailed (payload : String)
  /-- `output(_("获取到 {} 条K线数据").format(len(bars)))` -/
  | barCount (n : Nat)
deriving DecidableEq, Repr

/-- The argument tuple of one `request_history_kline` call. -/
structure KlineArgs where
  code : String
  ktype : KLType
  start : String
  «end» : String
  page_req_key : Option String
deriving DecidableEq, Repr

/-- `futu.RET_OK`. -/
def RET_OK : Int := 0

/-- One vendor reply `(ret, data, page_req_key)`. In Python `data` is a
DataFrame when `ret == RET_OK` and an error string otherwise; the two
dynamic types are carried as the two fields `rows` / `errMsg`, each
meaningful in its own case. -/
structure PageResponse where
  ret : Int
  rows : List Row
  errMsg : String
  page_req_key : Option String
deriving DecidableEq, Repr

/-- Python truthiness of the `page_req_key` value tested by
`while page_req_key:` — `None` and the empty string are falsy. -/
def truthy : Option String → Bool
  | none => false
  | some s => !s.isEmpty

/-- The session object created by `OpenQuoteContext(host, port,
is_encrypt)`: its construction arguments (its query behaviour is the
separate response script). -/
structure OpenQuoteContext where
  host : String
  port : Int
  is_encrypt : Bool
deriving DecidableEq, Repr

/-- The mutable fields of the `FutuDatafeed` object. -/
structure FutuDatafeed where
  quote_ctx : Option OpenQuoteContext
  inited : Bool
deriving DecidableEq, Repr

/-- The `setting` dictionary read by `init`: `address` and `port` are
required lookups, `is_encrypted` is read with
`setting.get("is_encrypted", False)`, so an absent key is `none`. -/
structure InitSetting where
  address : String
  port : Int
  is_encrypted : Option Bool
deriving DecidableEq, Repr

/-- Observable events of `init` / `close`: calls to the encryption
collaborator (`SysConfig`), session lifecycle operations, and `print`
diagnostics, in program order. A collaborator call is recorded even
when it raises. -/
inductive InitEvent where
  /-- `SysConfig.enable_proto_encrypt(is_encrypt=True)` -/
  | enableProtoEncrypt (flag : Bool)
  /-- `SysConfig.set_init_rsa_file(private_key_path)` -/
  | setInitRsaFile (path : String)
  /-- `print(f"设置加密连接失败：{str(e)}")` -/
  | encryptFailedMsg (err : String)
  /-- `print(f"RSA私钥文件路径: {private_key_path}")` -/
  | rsaPathMsg (path : String)
  /-- `self.quote_ctx.close()` on the previously held session -/
  | closeOldSession
  /-- `OpenQuoteContext(host, port, is_encrypt)` construction -/
  | openSession (host : String) (port : Int) (is_encrypt : Bool)
  /-- `print(_("富途数据源初始化成功"))` -/
  | initSuccessMsg
deriving DecidableEq, Repr

/-- `os.path.join(a, b)` for a relative, non-empty `b`: append with a
separator unless `a` is empty or already ends in one. -/
def os_path_join (a b : String) : String :=
  if a.data = [] then b
  else if a.data.getLast? = some '/' then a ++ b
  else a ++ "/" ++ b

/-- `os.path.join(os.path.dirname(__file__), "..", "rsa_key",
"rsa_private_key.txt")`, with `moduleDir` standing for
`os.path.dirname(__file__)`. -/
def private_key_path (moduleDir : String) : String :=
  os_path_join (os_path_join (os_path_join moduleDir "..") "rsa_key")
    "rsa_private_key.txt"

/-- `FutuDatafeed.init(setting)`. The two `SysConfig` calls can raise;
`enableResult` / `setRsaResult` give the exception message each one
would raise (`none` = it succeeds). Returns the state after the call,
the events in order, and the boolean return value. -/
def init (self : FutuDatafeed) (moduleDir : String)
    (enableResult setRsaResult : Option String)
    (setting : InitSetting) : FutuDatafeed × List InitEvent × Bool :=
  let is_encrypt := setting.is_encrypted.getD false
  let path := private_key_path moduleDir
  let encStep : List InitEvent × Bool :=
    if is_encrypt then
      match enableResult with
      | some e =>
        ([.enableProtoEncrypt true, .encryptFailedMsg e, .rsaPathMsg path],
         false)
      | none =>
        match setRsaResult with
        | some e =>
          ([.enableProtoEncrypt true, .setInitRsaFile path,
            .encryptFailedMsg e, .rsaPathMsg path], false)
        | none =>
          ([.enableProtoEncrypt true, .setInitRsaFile path], true)
    else ([], true)
  if encStep.2 then
    let closeEvs : List InitEvent :=
      match self.quote_ctx with
      | some _ => [.closeOldSession]
      | none => []
    (⟨some ⟨setting.address, setting.port, is_encrypt⟩, true⟩,
     encStep.1 ++ closeEvs ++
       [.openSession setting.address setting.port is_encrypt,
        .initSuccessMsg],
     true)
  else
    (self, encStep.1, false)

/-- `FutuDatafeed.close()`: close the session if one is held, set
`inited` to `False`; the `quote_ctx` reference itself is kept. -/
def close (self : FutuDatafeed) : FutuDatafeed × List InitEvent :=
  let evs : List InitEvent :=
    match self.quote_ctx with
    | some _ => [.closeOldSession]
    | none => []
  ({ self with inited := false }, evs)

/-- The `BarData(...)` construction for one row of the accumulated
DataFrame; `none` models the `ValueError` `strptime` raises on a
malformed `time_key`. -/
def makeBar (symbol : String) (exchange : Exchange) (interval : Interval)
    (row : Row) : Option BarData :=
  match strptime_YmdHMS row.time_key with
  | none => none
  | some dt =>
    some
      { symbol := symbol
        exchange := exchange
        datetime := { dt with tzinfo := some "Asia/Shanghai" }
        interval := interval
        volume := row.volume
        turnover := row.turnover
        open_price := row.«open»
        high_price := row.high
        low_price := row.low
        close_price := row.close
        gateway_name := "FUTU" }

/-- The `for row in all_data.itertuples()` loop: map every accumulated
row to a bar, in order; `none` as soon as one row raises. -/
def mapBars (symbol : String) (exchange : Exchange) (interval : Interval) :
    List Row → Option (List BarData)
  | [] => some []
  | r :: rs =>
    match makeBar symbol exchange interval r,
        mapBars symbol exchange interval rs with
    | some b, some bs => some (b :: bs)
    | _, _ => none

/-- The `while page_req_key:` loop. Arguments: the fixed call
parameters, the remaining response script, the accumulated rows
(`all_data`) and the current `page_req_key`. Returns the accumulated
rows, the diagnostics the loop emitted, and the calls it issued;
`none` when the loop calls the session but the script is exhausted. -/
def paginate (code : String) (ktype : KLType) (startS endS : String) :
    List PageResponse → List Row → Option String →
    Option (List Row × List Msg × List KlineArgs)
  | _, all_data, none => some (all_data, [], [])
  | script, all_data, some k =>
    if k.isEmpty then some (all_data, [], [])
    else
      match script with
      | [] => none
      | resp :: rest =>
        let args : KlineArgs := ⟨code, ktype, startS, endS, some k⟩
        if resp.ret = RET_OK then
          match paginate code ktype startS endS rest
              (all_data ++ resp.rows) resp.page_req_key with
          | none => none
          | some (rows, msgs, calls) => some (rows, msgs, args :: calls)
        else
          some (all_data, [.pageFailed resp.errMsg], [args])

/-- Everything observable about one `query_bar_history` call: the
returned bars, the diagnostics written to `output` in order, the
session calls issued in order, and the object state after the call. -/
structure QueryOutcome where
  bars : List BarData
  msgs : List Msg
  calls : List KlineArgs
  state : FutuDatafeed
deriving DecidableEq, Repr

/-- `FutuDatafeed.query_bar_history(req, output)`, with the vendor's
successive replies given by `script`. `none` models the two situations
the embedding leaves undefined: a session call beyond the script, and
the `ValueError` a malformed `time_key` raises out of the method. -/
def query_bar_history (self : FutuDatafeed) (script : List PageResponse)
    (req : HistoryRequest) : Option QueryOutcome :=
  if self.inited then
    match INTERVAL_VT2FUTU req.interval with
    | none => some ⟨[], [.unsupportedInterval req.interval], [], self⟩
    | some ktype =>
      let market := EXCHANGE_VT2FUTU_get req.exchange
      if market = "" then
        some ⟨[], [.unsupportedExchange req.exchange], [], self⟩
      else
        let futu_symbol := market ++ "." ++ req.symbol
        let startMsg : Msg :=
          .queryStart futu_symbol ktype req.start req.«end»
        let startS := strftime_Ymd req.start
        let endS := strftime_Ymd req.«end»
        let call0 : KlineArgs := ⟨futu_symbol, ktype, startS, endS, none⟩
        match script with
        | [] => none
        | first :: rest =>
          if first.ret = RET_OK then
            match paginate futu_symbol ktype startS endS rest
                first.rows first.page_req_key with
            | none => none
            | some (all_data, pmsgs, pcalls) =>
              match mapBars req.symbol req.exchange req.interval
                  all_data with
              | none => none
              | some bars =>
                some ⟨bars,
                  startMsg :: pmsgs ++ [.barCount bars.length],
                  call0 :: pcalls, self⟩
          else
            some ⟨[], [startMsg, .queryFailed first.errMsg],
              [call0], self⟩
  else
    some ⟨[], [.notInited], [], self⟩

/-- Concrete session used by witness theorems. -/
def sampleCtx : OpenQuoteContext := ⟨"127.0.0.1", 11111, false⟩

/-- Concrete initialized fetcher state used by witness theorems. -/
def sampleState : FutuDatafeed := ⟨some sampleCtx, true⟩

/-- Concrete request used by witness theorems. -/
def sampleReq : HistoryRequest :=
  ⟨"00700", .SEHK, .MINUTE, ⟨2024, 1, 1, 0, 0, 0, none⟩,
    ⟨2024, 1, 2, 0, 0, 0, none⟩⟩

/-- Concrete vendor row used by witness theorems. -/
def sampleRow1 : Row := ⟨"2024-01-02 09:30:00", 1, 2, 3, 4, 5, 6⟩

/-- Second concrete vendor row used by witness theorems. -/
def sampleRow2 : Row := ⟨"2024-01-02 09:31:00", 7, 8, 9, 10, 11, 12⟩

/-- The bar `sampleRow1` maps to. -/
def sampleBar1 : BarData :=
  ⟨"00700", .SEHK, ⟨2024, 1, 2, 9, 30, 0, some "Asia/Shanghai"⟩,
    .MINUTE, 5, 6, 1, 2, 3, 4, "FUTU"⟩

/-- The bar `sampleRow2` maps to. -/
def sampleBar2 : BarData :=
  ⟨"00700", .SEHK, ⟨2024, 1, 2, 9, 31, 0, some "Asia/Shanghai"⟩,
    .MINUTE, 11, 12, 7, 8, 9, 10, "FUTU"⟩

/-! ### Helper lemmas -/

theorem paginate_to_failure (code : String) (ktype : KLType)
    (startS endS : String) (bad : PageResponse)
    (rest : List PageResponse) :
    ∀ (goods : List PageResponse) (acc : List Row) (k : Option String),
      (∀ p ∈ goods, p.ret = RET_OK ∧ truthy p.page_req_key = true) →
      truthy k = true → bad.ret ≠ RET_OK →
      ∃ calls,
        paginate code ktype startS endS (goods ++ bad :: rest) acc k =
          some (acc ++ (goods.map PageResponse.rows).flatten,
            [Msg.pageFailed bad.errMsg], calls) := by
  intro goods
  induction goods with
  | nil =>
    intro acc k hg hk hbad
    cases k with
    | none => simp [truthy] at hk
    | some s =>
      have hs : s.isEmpty = false := by simpa [truthy] using hk
      exact ⟨[⟨code, ktype, startS, endS, some s⟩],
        by simp [paginate, hs, hbad]⟩
  | cons p goods ih =>
    intro acc k hg hk hbad
    cases k with
    | none => simp [truthy] at hk
    | some s =>
      have hs : s.isEmpty = false := by simpa [truthy] using hk
      obtain ⟨hp, hpk⟩ := hg p (List.mem_cons_self _ _)
      obtain ⟨calls, hc⟩ := ih (acc ++ p.rows) p.page_req_key
        (fun q hq => hg q (List.mem_cons_of_mem _ hq)) hpk hbad
      exact ⟨⟨code, ktype, startS, endS, some s⟩ :: calls,
        by simp [paginate, hs, hp, hc, List.append_assoc]⟩

theorem paginate_last_page (code : String) (ktype : KLType)
    (startS endS : String) (p2 : PageResponse) (acc : List Row)
    (k : Option String)
    (hk : truthy k = true) (h2 : p2.ret = RET_OK)
    (hk2 : truthy p2.page_req_key = false) :
    ∃ s, k = some s ∧
      paginate code ktype startS endS [p2] acc k =
        some (acc ++ p2.rows, [],
          [⟨code, ktype, startS, endS, some s⟩]) := by
  cases k with
  | none => simp [truthy] at hk
  | some s =>
    have hs : s.isEmpty = false := by simpa [truthy] using hk
    refine ⟨s, rfl, ?_⟩
    cases hpk : p2.page_req_key with
    | none => simp [paginate, hs, h2, hpk]
    | some t =>
      have ht : t.isEmpty = true := by
        have := hk2
        rw [hpk] at this
        simpa [truthy] using this
      simp [paginate, hs, h2, hpk, ht]

theorem private_key_path_eq (moduleDir : String)
    (h1 : moduleDir.data ≠ [])
    (h2 : moduleDir.data.getLast? ≠ some '/') :
    private_key_path moduleDir =
      (moduleDir ++ "/..") ++ "/rsa_key/rsa_private_key.txt" := by
  have j1 : os_path_join moduleDir ".." = moduleDir ++ "/" ++ ".." := by
    simp [os_path_join, h1, h2]
  have e1 : (moduleDir ++ "/" ++ "..").data =
      moduleDir.data ++ ['/', '.', '.'] := by
    rw [String.data_append, String.data_append, List.append_assoc]
    rfl
  have ne1 : (moduleDir ++ "/" ++ "..").data ≠ [] := by simp [e1]
  have gl1 : (moduleDir ++ "/" ++ "..").data.getLast? = some '.' := by
    rw [e1, List.getLast?_append]
    rfl
  have j2 : os_path_join (moduleDir ++ "/" ++ "..") "rsa_key" =
      moduleDir ++ "/" ++ ".." ++ "/" ++ "rsa_key" := by
    simp [os_path_join, ne1, gl1]
  have e2 : (moduleDir ++ "/" ++ ".." ++ "/" ++ "rsa_key").data =
      moduleDir.data ++
        ['/', '.', '.', '/', 'r', 's', 'a', '_', 'k', 'e', 'y'] := by
    repeat rw [String.data_append]
    simp [List.append_assoc]
  have ne2 : (moduleDir ++ "/" ++ ".." ++ "/" ++ "rsa_key").data ≠ [] := by
    simp [e2]
  have gl2 : (moduleDir ++ "/" ++ ".." ++ "/" ++ "rsa_key").data.getLast? =
      some 'y' := by
    rw [e2, List.getLast?_append]
    rfl
  have j3 : os_path_join (moduleDir ++ "/" ++ ".." ++ "/" ++ "rsa_key")
      "rsa_private_key.txt" =
      moduleDir ++ "/" ++ ".." ++ "/" ++ "rsa_key" ++ "/" ++
        "rsa_private_key.txt" := by
    simp [os_path_join, ne2, gl2]
  rw [private_key_path, j1, j2, j3]
  simp only [String.append_assoc]
  rfl

theorem mapBars_length (symbol : String) (exchange : Exchange)
    (interval : Interval) :
    ∀ rows bars, mapBars symbol exchange interval rows = some bars →
      bars.length = rows.length := by
  intro rows
  induction rows with
  | nil =>
    intro bars h
    simp [mapBars] at h
    simp [← h]
  | cons r rs ih =>
    intro bars h
    cases hb : makeBar symbol exchange interval r with
    | none => simp [mapBars, hb] at h
    | some b =>
      cases hm : mapBars symbol exchange interval rs with
      | none => simp [mapBars, hb, hm] at h
      | some bs =>
        simp [mapBars, hb, hm] at h
        simp [← h, ih bs hm]

theorem mapBars_get (symbol : String) (exchange : Exchange)
    (interval : Interval) :
    ∀ rows bars, mapBars symbol exchange interval rows = some bars →
      ∀ i (hi : i < rows.length) (hb : i < bars.length),
        makeBar symbol exchange interval (rows.get ⟨i, hi⟩) =
          some (bars.get ⟨i, hb⟩) := by
  intro rows
  induction rows with
  | nil => intro bars h i hi hb; exact absurd hi (by simp)
  | cons r rs ih =>
    intro bars h i hi hb
    cases hb1 : makeBar symbol exchange interval r with
    | none => simp [mapBars, hb1] at h
    | some b =>
      cases hm : mapBars symbol exchange interval rs with
      | none => simp [mapBars, hb1, hm] at h
      | some bs =>
        simp [mapBars, hb1, hm] at h
        subst h
        cases i with
        | zero => simpa using hb1
        | succ j =>
          exact ih bs hm j (Nat.lt_of_succ_lt_succ hi)
            (Nat.lt_of_succ_lt_succ hb)

/-! ### Claim theorems -/

/-- C4: on a non-initialized fetcher (`inited = false`, as before any
`init` or after `close`), `query_bar_history` returns `some` of an
outcome (a soft no-op, not an exception) with no bars, exactly the
"not initialized" diagnostic, no session calls, and unchanged state —
for every script and every request. -/
theorem C4_not_initialized_soft_noop (self : FutuDatafeed)
    (script : List PageResponse) (req : HistoryRequest)
    (h : self.inited = false) :
    query_bar_history self script req =
      some ⟨[], [.notInited], [], self⟩ := by
  simp [query_bar_history, h]

/-- Witness for C4 at a concrete state and request. -/
theorem C4_not_initialized_soft_noop_witness :
    query_bar_history ⟨none, false⟩ []
      ⟨"00700", .SEHK, .MINUTE, ⟨2024, 1, 1, 0, 0, 0, none⟩,
        ⟨2024, 1, 2, 0, 0, 0, none⟩⟩ =
      some ⟨[], [.notInited], [], ⟨none, false⟩⟩ :=
  C4_not_initialized_soft_noop ⟨none, false⟩ [] _ rfl

/-- C5: on an initialized fetcher, a request whose interval is not in
`INTERVAL_VT2FUTU` — and likewise one whose interval is mapped but
whose exchange is not in `EXCHANGE_VT2FUTU` — yields an empty bar
list, exactly one diagnostic, and no session calls, for every
script. -/
theorem C5_unmapped_interval_or_exchange (self : FutuDatafeed)
    (script : List PageResponse) (req : HistoryRequest)
    (h : self.inited = true) :
    (INTERVAL_VT2FUTU req.interval = none →
      query_bar_history self script req =
        some ⟨[], [.unsupportedInterval req.interval], [], self⟩) ∧
    (∀ kt, INTERVAL_VT2FUTU req.interval = some kt →
      EXCHANGE_VT2FUTU_get req.exchange = "" →
      query_bar_history self script req =
        some ⟨[], [.unsupportedExchange req.exchange], [], self⟩) := by
  constructor
  · intro hiv
    simp [query_bar_history, h, hiv]
  · intro kt hiv hex
    simp [query_bar_history, h, hiv, hex]

/-- Witness for C5: a TICK-interval request and an NYSE-exchange
request on a concrete initialized state. -/
theorem C5_unmapped_interval_or_exchange_witness :
    query_bar_history ⟨some ⟨"127.0.0.1", 11111, false⟩, true⟩ []
        ⟨"00700", .SEHK, .TICK, ⟨2024, 1, 1, 0, 0, 0, none⟩,
          ⟨2024, 1, 2, 0, 0, 0, none⟩⟩ =
      some ⟨[], [.unsupportedInterval .TICK], [],
        ⟨some ⟨"127.0.0.1", 11111, false⟩, true⟩⟩ ∧
    query_bar_history ⟨some ⟨"127.0.0.1", 11111, false⟩, true⟩ []
        ⟨"AAPL", .NYSE, .MINUTE, ⟨2024, 1, 1, 0, 0, 0, none⟩,
          ⟨2024, 1, 2, 0, 0, 0, none⟩⟩ =
      some ⟨[], [.unsupportedExchange .NYSE], [],
        ⟨some ⟨"127.0.0.1", 11111, false⟩, true⟩⟩ :=
  ⟨(C5_unmapped_interval_or_exchange _ [] _ rfl).1 rfl,
   (C5_unmapped_interval_or_exchange _ [] _ rfl).2 .K_1M rfl rfl⟩

/-- C10: `query_bar_history` never modifies the fetcher's state — for
every request, script and outcome, the `inited` flag and the
`quote_ctx` reference after the call equal their values before it. -/
theorem C10_query_preserves_state (self : FutuDatafeed)
    (script : List PageResponse) (req : HistoryRequest)
    (o : QueryOutcome)
    (h : query_bar_history self script req = some o) :
    o.state = self := by
  unfold query_bar_history at h
  by_cases hex : EXCHANGE_VT2FUTU_get req.exchange = "" <;>
    simp only [hex, if_true, if_false, reduceIte] at h <;>
    repeat' split at h
  all_goals (try exact Option.noConfusion h)
  all_goals (cases h; rfl)

/-- Witness for C10 on a concrete successful two-page query. -/
theorem C10_query_preserves_state_witness :
    (QueryOutcome.state
      ⟨[⟨"00700", .SEHK,
          ⟨2024, 1, 2, 9, 30, 0, some "Asia/Shanghai"⟩, .MINUTE,
          5, 6, 1, 2, 3, 4, "FUTU"⟩],
        [.queryStart "HK.00700" .K_1M ⟨2024, 1, 1, 0, 0, 0, none⟩
          ⟨2024, 1, 2, 0, 0, 0, none⟩, .barCount 1],
        [⟨"HK.00700", .K_1M, "2024-01-01", "2024-01-02", none⟩],
        ⟨some ⟨"127.0.0.1", 11111, false⟩, true⟩⟩) =
      ⟨some ⟨"127.0.0.1", 11111, false⟩, true⟩ :=
  C10_query_preserves_state ⟨some ⟨"127.0.0.1", 11111, false⟩, true⟩
    [⟨RET_OK, [⟨"2024-01-02 09:30:00", 1, 2, 3, 4, 5, 6⟩], "", none⟩]
    ⟨"00700", .SEHK, .MINUTE, ⟨2024, 1, 1, 0, 0, 0, none⟩,
      ⟨2024, 1, 2, 0, 0, 0, none⟩⟩
    _ (by decide)

/-- C1: on an initialized fetcher with mapped interval and exchange,
when the first page succeeds with a continuation token and the second
page succeeds with no further token, `query_bar_history` returns the
bars mapped from the concatenation of both pages' rows in original
order, and the result count equals the sum of the two page sizes. -/
theorem C1_two_page_concatenation (self : FutuDatafeed)
    (req : HistoryRequest) (p1 p2 : PageResponse) (kt : KLType)
    (bars : List BarData)
    (hin : self.inited = true)
    (hiv : INTERVAL_VT2FUTU req.interval = some kt)
    (hex : ¬ EXCHANGE_VT2FUTU_get req.exchange = "")
    (h1 : p1.ret = RET_OK) (hk1 : truthy p1.page_req_key = true)
    (h2 : p2.ret = RET_OK) (hk2 : truthy p2.page_req_key = false)
    (hmap : mapBars req.symbol req.exchange req.interval
        (p1.rows ++ p2.rows) = some bars) :
    (∃ calls,
      query_bar_history self [p1, p2] req =
        some ⟨bars,
          [.queryStart
             (EXCHANGE_VT2FUTU_get req.exchange ++ "." ++ req.symbol)
             kt req.start req.«end», .barCount bars.length],
          calls, self⟩) ∧
    bars.length = p1.rows.length + p2.rows.length := by
  obtain ⟨s, hks, hc⟩ := paginate_last_page
    (EXCHANGE_VT2FUTU_get req.exchange ++ "." ++ req.symbol) kt
    (strftime_Ymd req.start) (strftime_Ymd req.«end») p2 p1.rows
    p1.page_req_key hk1 h2 hk2
  constructor
  · refine ⟨[⟨EXCHANGE_VT2FUTU_get req.exchange ++ "." ++ req.symbol, kt,
        strftime_Ymd req.start, strftime_Ymd req.«end», none⟩,
      ⟨EXCHANGE_VT2FUTU_get req.exchange ++ "." ++ req.symbol, kt,
        strftime_Ymd req.start, strftime_Ymd req.«end», some s⟩], ?_⟩
    simp [query_bar_history, hin, hiv, hex, h1, hc, hmap]
  · have := mapBars_length req.symbol req.exchange req.interval _ _ hmap
    simpa using this

/-- Witness for C1: a concrete two-page query whose pages hold one row
each. -/
theorem C1_two_page_concatenation_witness :
    (∃ calls,
      query_bar_history sampleState
          [⟨RET_OK, [sampleRow1], "", some "tok1"⟩,
           ⟨RET_OK, [sampleRow2], "", none⟩] sampleReq =
        some ⟨[sampleBar1, sampleBar2],
          [.queryStart
             (EXCHANGE_VT2FUTU_get sampleReq.exchange ++ "." ++
               sampleReq.symbol)
             .K_1M sampleReq.start sampleReq.«end»,
           .barCount [sampleBar1, sampleBar2].length],
          calls, sampleState⟩) ∧
    [sampleBar1, sampleBar2].length =
      [sampleRow1].length + [sampleRow2].length :=
  C1_two_page_concatenation sampleState sampleReq
    ⟨RET_OK, [sampleRow1], "", some "tok1"⟩
    ⟨RET_OK, [sampleRow2], "", none⟩ .K_1M [sampleBar1, sampleBar2]
    rfl rfl (by decide) rfl (by decide) rfl (by decide) (by decide)

/-- C2: on an initialized fetcher with mapped interval and exchange,
after a successful first page with a continuation token and any number
of further successful pages with tokens, a failing page makes
`query_bar_history` emit the page-failure diagnostic and return
exactly the bars mapped from the pages accumulated so far — the pages
after the failure (`rest`) are never consulted and the partial result
is kept (the two-page case is `goods = []`, returning exactly the
first page's rows). -/
theorem C2_page_failure_partial_results (self : FutuDatafeed)
    (req : HistoryRequest) (first bad : PageResponse)
    (goods rest : List PageResponse) (kt : KLType) (bars : List BarData)
    (hin : self.inited = true)
    (hiv : INTERVAL_VT2FUTU req.interval = some kt)
    (hex : ¬ EXCHANGE_VT2FUTU_get req.exchange = "")
    (h1 : first.ret = RET_OK) (hk1 : truthy first.page_req_key = true)
    (hg : ∀ p ∈ goods, p.ret = RET_OK ∧ truthy p.page_req_key = true)
    (hbad : bad.ret ≠ RET_OK)
    (hmap : mapBars req.symbol req.exchange req.interval
        (first.rows ++ (goods.map PageResponse.rows).flatten) =
      some bars) :
    ∃ calls,
      query_bar_history self (first :: (goods ++ bad :: rest)) req =
        some ⟨bars,
          [.queryStart
             (EXCHANGE_VT2FUTU_get req.exchange ++ "." ++ req.symbol)
             kt req.start req.«end»,
           .pageFailed bad.errMsg, .barCount bars.length],
          calls, self⟩ := by
  obtain ⟨calls, hc⟩ := paginate_to_failure
    (EXCHANGE_VT2FUTU_get req.exchange ++ "." ++ req.symbol) kt
    (strftime_Ymd req.start) (strftime_Ymd req.«end») bad rest goods
    first.rows first.page_req_key hg hk1 hbad
  exact ⟨⟨EXCHANGE_VT2FUTU_get req.exchange ++ "." ++ req.symbol, kt,
      strftime_Ymd req.start, strftime_Ymd req.«end», none⟩ :: calls,
    by simp [query_bar_history, hin, hiv, hex, h1, hc, hmap]⟩

/-- Witness for C2: a concrete first page with a token followed by a
failing second page; exactly the first page's row is returned. -/
theorem C2_page_failure_partial_results_witness :
    ∃ calls,
      query_bar_history sampleState
          [⟨RET_OK, [sampleRow1], "", some "tok1"⟩,
           ⟨-1, [], "network down", some "tok2"⟩] sampleReq =
        some ⟨[sampleBar1],
          [.queryStart
             (EXCHANGE_VT2FUTU_get sampleReq.exchange ++ "." ++
               sampleReq.symbol)
             .K_1M sampleReq.start sampleReq.«end»,
           .pageFailed "network down", .barCount [sampleBar1].length],
          calls, sampleState⟩ :=
  C2_page_failure_partial_results sampleState sampleReq
    ⟨RET_OK, [sampleRow1], "", some "tok1"⟩
    ⟨-1, [], "network down", some "tok2"⟩ [] [] .K_1M [sampleBar1]
    rfl rfl (by decide) rfl (by decide) (by simp) (by decide) (by decide)

/-- C3: every accumulated row with a timestamp in the fixed format maps
to exactly one bar whose datetime is the parsed `time_key` with the
fixed Asia/Shanghai zone attached, whose OHLC/volume/turnover fields
are copied unchanged, tagged with the fixed gateway identifier "FUTU";
the sample timestamp "2024-01-02 09:30:00" parses to that date-time;
and `mapBars` preserves both the count and the order of the rows. -/
theorem C3_row_mapping_fields (symbol : String) (exchange : Exchange)
    (interval : Interval) :
    (∀ row dt, strptime_YmdHMS row.time_key = some dt →
      makeBar symbol exchange interval row =
        some ⟨symbol, exchange,
          ⟨dt.year, dt.month, dt.day, dt.hour, dt.minute, dt.second,
            some "Asia/Shanghai"⟩,
          interval, row.volume, row.turnover, row.«open», row.high,
          row.low, row.close, "FUTU"⟩) ∧
    strptime_YmdHMS "2024-01-02 09:30:00" =
      some ⟨2024, 1, 2, 9, 30, 0, none⟩ ∧
    (∀ rows bars, mapBars symbol exchange interval rows = some bars →
      bars.length = rows.length ∧
      ∀ i (hi : i < rows.length) (hb : i < bars.length),
        makeBar symbol exchange interval (rows.get ⟨i, hi⟩) =
          some (bars.get ⟨i, hb⟩)) := by
  refine ⟨?_, by decide, ?_⟩
  · intro row dt hp
    simp [makeBar, hp]
  · intro rows bars hm
    exact ⟨mapBars_length symbol exchange interval rows bars hm,
      mapBars_get symbol exchange interval rows bars hm⟩

/-- Witness for C3: the sample row with timestamp
"2024-01-02 09:30:00" maps to the expected timezone-aware bar. -/
theorem C3_row_mapping_fields_witness :
    makeBar "00700" .SEHK .MINUTE sampleRow1 =
      some ⟨"00700", .SEHK,
        ⟨2024, 1, 2, 9, 30, 0, some "Asia/Shanghai"⟩,
        .MINUTE, 5, 6, 1, 2, 3, 4, "FUTU"⟩ :=
  (C3_row_mapping_fields "00700" .SEHK .MINUTE).1 sampleRow1
    ⟨2024, 1, 2, 9, 30, 0, none⟩ (by decide)

/-- C6: on an initialized fetcher with mapped interval and exchange,
the first page request carries the vendor symbol
`"<market-code>.<symbol>"` and start/end formatted as calendar dates
(`strftime_Ymd` discards the time of day); and when the first page
reports a non-success status the call emits a diagnostic carrying the
vendor's error payload and returns an empty sequence. -/
theorem C6_first_page_args_and_failure (self : FutuDatafeed)
    (req : HistoryRequest) (kt : KLType) (p1 : PageResponse)
    (rest : List PageResponse)
    (hin : self.inited = true)
    (hiv : INTERVAL_VT2FUTU req.interval = some kt)
    (hex : ¬ EXCHANGE_VT2FUTU_get req.exchange = "") :
    (∀ o, query_bar_history self (p1 :: rest) req = some o →
      o.calls.head? =
        some ⟨EXCHANGE_VT2FUTU_get req.exchange ++ "." ++ req.symbol,
          kt, strftime_Ymd req.start, strftime_Ymd req.«end», none⟩) ∧
    (∀ d : PyDatetime,
      strftime_Ymd d =
        strftime_Ymd ⟨d.year, d.month, d.day, 0, 0, 0, none⟩) ∧
    (p1.ret ≠ RET_OK →
      query_bar_history self (p1 :: rest) req =
        some ⟨[],
          [.queryStart
             (EXCHANGE_VT2FUTU_get req.exchange ++ "." ++ req.symbol)
             kt req.start req.«end», .queryFailed p1.errMsg],
          [⟨EXCHANGE_VT2FUTU_get req.exchange ++ "." ++ req.symbol, kt,
            strftime_Ymd req.start, strftime_Ymd req.«end», none⟩],
          self⟩) := by
  refine ⟨?_, fun d => rfl, ?_⟩
  · intro o ho
    simp only [query_bar_history, hin, if_true, hiv] at ho
    rw [if_neg hex] at ho
    repeat' split at ho
    all_goals (try exact Option.noConfusion ho)
    all_goals (cases ho; rfl)
  · intro h1
    simp [query_bar_history, hin, hiv, hex, h1]

/-- Witness for C6: a concrete failing first page returns empty with
the vendor's error payload in the diagnostic, and the issued call is
recorded. -/
theorem C6_first_page_args_and_failure_witness :
    query_bar_history sampleState [⟨-1, [], "network down", none⟩]
        sampleReq =
      some ⟨[],
        [.queryStart
           (EXCHANGE_VT2FUTU_get sampleReq.exchange ++ "." ++
             sampleReq.symbol)
           .K_1M sampleReq.start sampleReq.«end»,
         .queryFailed "network down"],
        [⟨EXCHANGE_VT2FUTU_get sampleReq.exchange ++ "." ++
            sampleReq.symbol, .K_1M,
          strftime_Ymd sampleReq.start, strftime_Ymd sampleReq.«end»,
          none⟩],
        sampleState⟩ :=
  (C6_first_page_args_and_failure sampleState sampleReq .K_1M
    ⟨-1, [], "network down", none⟩ [] rfl rfl (by decide)).2.2
    (by decide)

/-- C7 counterexample: with a session already held and encryption
configuration failing, `init` aborts with `false` but the old session
is NOT closed first — no close event is emitted and the session
reference survives — refuting the claim's "the old session, if any, is
closed first" at this concrete input. -/
theorem C7_counterexample_session_not_closed :
    ((init ⟨some ⟨"127.0.0.1", 11111, false⟩, true⟩ "/opt/site/vnpy_futu"
        (some "boom") none ⟨"127.0.0.1", 11111, some true⟩).2.2 =
      false) ∧
    ((init ⟨some ⟨"127.0.0.1", 11111, false⟩, true⟩ "/opt/site/vnpy_futu"
        (some "boom") none ⟨"127.0.0.1", 11111, some true⟩).1.quote_ctx =
      some ⟨"127.0.0.1", 11111, false⟩) ∧
    InitEvent.closeOldSession ∉
      (init ⟨some ⟨"127.0.0.1", 11111, false⟩, true⟩ "/opt/site/vnpy_futu"
        (some "boom") none ⟨"127.0.0.1", 11111, some true⟩).2.1 := by
  decide

/-- C7 amended: when encryption is requested and either encryption
collaborator call fails, `init` aborts returning `false` and leaves
the state exactly as it was — the `inited` flag is not set to true and
the session reference is unchanged; the old session is not closed and
no new session is opened by the aborted call. -/
theorem C7_encrypt_failure_leaves_state_untouched (self : FutuDatafeed)
    (moduleDir : String) (enableResult setRsaResult : Option String)
    (setting : InitSetting)
    (henc : setting.is_encrypted.getD false = true)
    (hfail : enableResult.isSome ∨ setRsaResult.isSome) :
    (init self moduleDir enableResult setRsaResult setting).2.2 =
      false ∧
    (init self moduleDir enableResult setRsaResult setting).1 = self ∧
    InitEvent.closeOldSession ∉
      (init self moduleDir enableResult setRsaResult setting).2.1 ∧
    (∀ h p b, InitEvent.openSession h p b ∉
      (init self moduleDir enableResult setRsaResult setting).2.1) := by
  cases her : enableResult with
  | some e =>
    refine ⟨by simp [init, henc, her], by simp [init, henc, her],
      ?_, ?_⟩
    · simp [init, henc, her]
    · intro h p b; simp [init, henc, her]
  | none =>
    cases hsr : setRsaResult with
    | some e =>
      refine ⟨by simp [init, henc, her, hsr],
        by simp [init, henc, her, hsr], ?_, ?_⟩
      · simp [init, henc, her, hsr]
      · intro h p b; simp [init, henc, her, hsr]
    | none =>
      rw [her, hsr] at hfail
      simp at hfail

/-- Witness for the amended C7: a concrete `set_init_rsa_file` failure
aborts `init` with the state untouched. -/
theorem C7_encrypt_failure_leaves_state_untouched_witness :
    (init sampleState "/opt/site/vnpy_futu" none (some "io-error")
        ⟨"127.0.0.1", 11111, some true⟩).2.2 = false ∧
    (init sampleState "/opt/site/vnpy_futu" none (some "io-error")
        ⟨"127.0.0.1", 11111, some true⟩).1 = sampleState ∧
    InitEvent.closeOldSession ∉
      (init sampleState "/opt/site/vnpy_futu" none (some "io-error")
        ⟨"127.0.0.1", 11111, some true⟩).2.1 ∧
    (∀ h p b, InitEvent.openSession h p b ∉
      (init sampleState "/opt/site/vnpy_futu" none (some "io-error")
        ⟨"127.0.0.1", 11111, some true⟩).2.1) :=
  C7_encrypt_failure_leaves_state_untouched sampleState
    "/opt/site/vnpy_futu" none (some "io-error")
    ⟨"127.0.0.1", 11111, some true⟩ rfl (Or.inr rfl)

/-- C8: `close` before any `init` (no session present) performs no
session close and leaves `inited = false`; for every prior state it
sets `inited` to false, keeps the session reference, closes the active
session exactly when one is present, and is idempotent. -/
theorem C8_close_idempotent_and_safe (self : FutuDatafeed) :
    close ⟨none, false⟩ = (⟨none, false⟩, []) ∧
    (close self).1.inited = false ∧
    (close self).1.quote_ctx = self.quote_ctx ∧
    ((close self).2 =
      if self.quote_ctx.isSome then [.closeOldSession] else []) ∧
    close (close self).1 = close self := by
  refine ⟨rfl, rfl, rfl, ?_, ?_⟩
  · cases h : self.quote_ctx <;> simp [close, h]
  · cases h : self.quote_ctx <;> simp [close, h]

/-- C9: whenever `init` passes a private-key file path to the
encryption collaborator it is the component's install location (the
parent of the module directory) extended with the fixed subpath
`rsa_key/rsa_private_key.txt`; and when `is_encrypted` is false the
encryption collaborator is never consulted. -/
theorem C9_rsa_key_path_and_enc_gating (self : FutuDatafeed)
    (moduleDir : String) (enableResult setRsaResult : Option String)
    (setting : InitSetting)
    (h1 : moduleDir.data ≠ [])
    (h2 : moduleDir.data.getLast? ≠ some '/') :
    (∀ p, InitEvent.setInitRsaFile p ∈
        (init self moduleDir enableResult setRsaResult setting).2.1 →
      p = (moduleDir ++ "/..") ++ "/rsa_key/rsa_private_key.txt") ∧
    (setting.is_encrypted.getD false = false →
      (∀ b, InitEvent.enableProtoEncrypt b ∉
        (init self moduleDir enableResult setRsaResult setting).2.1) ∧
      (∀ p, InitEvent.setInitRsaFile p ∉
        (init self moduleDir enableResult setRsaResult setting).2.1)) := by
  have hpk := private_key_path_eq moduleDir h1 h2
  constructor
  · intro p hp
    by_cases henc : setting.is_encrypted.getD false
    · cases her : enableResult with
      | some e =>
        simp [init, henc, her] at hp
      | none =>
        cases hsr : setRsaResult with
        | some e =>
          simp [init, henc, her, hsr] at hp
          rw [hp, hpk]
        | none =>
          cases hq : self.quote_ctx with
          | none =>
            simp [init, henc, her, hsr, hq] at hp
            rw [hp, hpk]
          | some c =>
            simp [init, henc, her, hsr, hq] at hp
            rw [hp, hpk]
    · cases hq : self.quote_ctx with
      | none => simp [init, henc, hq] at hp
      | some c => simp [init, henc, hq] at hp
  · intro henc
    constructor
    · intro b
      cases hq : self.quote_ctx with
      | none => simp [init, henc, hq]
      | some c => simp [init, henc, hq]
    · intro p
      cases hq : self.quote_ctx with
      | none => simp [init, henc, hq]
      | some c => simp [init, henc, hq]

/-- Witness for C9: on a concrete successful encrypted `init` the path
handed to `set_init_rsa_file` is the install location plus the fixed
subpath, and on a concrete non-encrypted `init` the collaborator is
not consulted. -/
theorem C9_rsa_key_path_and_enc_gating_witness :
    "/opt/site/vnpy_futu/../rsa_key/rsa_private_key.txt" =
      ("/opt/site/vnpy_futu" ++ "/..") ++
        "/rsa_key/rsa_private_key.txt" ∧
    InitEvent.enableProtoEncrypt true ∉
      (init sampleState "/opt/site/vnpy_futu" none none
        ⟨"127.0.0.1", 11111, some false⟩).2.1 :=
  ⟨(C9_rsa_key_path_and_enc_gating sampleState "/opt/site/vnpy_futu"
      none none ⟨"127.0.0.1", 11111, some true⟩ (by decide)
      (by decide)).1
    "/opt/site/vnpy_futu/../rsa_key/rsa_private_key.txt" (by decide),
   ((C9_rsa_key_path_and_enc_gating sampleState "/opt/site/vnpy_futu"
      none none ⟨"127.0.0.1", 11111, some false⟩ (by decide)
      (by decide)).2 rfl).1 true⟩

end VnpyFutu
